import Mathlib

/-!
Shallow embedding of the World Cup 2026 simulator (src/app.py).

Python dicts are embedded as association lists (`List (key × value)` with
`List.lookup`), `Optional[str]` as `Option String`, and the Streamlit
widgets as explicit input parameters: a selection widget's returned value
becomes a function argument, so every UI-dependent computation is a pure
function of the widget outputs.
-/

namespace WorldCupSim

/-- Embeds `INITIAL_GROUPS` (src/app.py lines 7-20): 12 groups of 4 teams. -/
def INITIAL_GROUPS : List (String × List String) :=
  [("A", ["Mexico", "South Africa", "South Korea", "UEFA D (DEN/MKD/CZE/IRL)"]),
   ("B", ["Canada", "UEFA A (ITA/NIR/WAL/BIH)", "Qatar", "Switzerland"]),
   ("C", ["Brazil", "Morrocco", "Haiti", "Scotland"]),
   ("D", ["USA", "Paraguay", "Australia", "UEFA C (SVK/KOS/TUR/ROU)"]),
   ("E", ["Germany", "Curaçao", "Ivory Coast", "Ecuador"]),
   ("F", ["Netherlands", "Japan", "UEFA B (UKR/SWE/POL/ALB)", "Tunisia"]),
   ("G", ["Belgium", "Egypt", "Iran", "New Zealand"]),
   ("H", ["Spain", "Cabo Verde", "Saudi Arabia", "Uruguay"]),
   ("I", ["France", "Senegal", "IC2 (BOL/SUR/IRQ)", "Norway"]),
   ("J", ["Argentina", "Algeria", "Austria", "Jordan"]),
   ("K", ["Portugal", "IC1 (NCL/JAM/COD)", "Uzbekistan", "Colombia"]),
   ("L", ["England", "Croatia", "Ghana", "Panama"])]

/-- Embeds `GROUP_NAMES = sorted(list(INITIAL_GROUPS.keys()))` (line 22).
The keys above are already listed in sorted order A..L. -/
def GROUP_NAMES : List String := INITIAL_GROUPS.map (fun p => p.1)

/-- Embeds `ordinal` (lines 27-32). Python `%` on `int` and Lean `%` on `Int`
agree (both yield a result with the sign of the divisor), and `f"{n}"`
corresponds to `toString n`. The dict `.get` with default "th" becomes the
if-chain. -/
def ordinal (n : Int) : String :=
  let suffix :=
    if 10 ≤ n % 100 ∧ n % 100 ≤ 20 then "th"
    else if n % 10 = 1 then "st"
    else if n % 10 = 2 then "nd"
    else if n % 10 = 3 then "rd"
    else "th"
  toString n ++ suffix

/-- Embeds `validar_permutacao` (lines 35-38). Python
`len(choices) == len(set(choices))` is embedded as comparing the length
with the length after removing duplicates. -/
def validar_permutacao (choices : List String) (empty : String) : Bool :=
  if empty ∈ choices then false
  else choices.length == choices.dedup.length

/-- Message appended for a group whose standing fails validation
(line 80, with the f-string expanded). -/
def group_error_msg (g : String) : String :=
  "Fill Group " ++ g ++ " correctly (no repetition and no empty fields)."

/-- Embeds `montar_classificacao_grupos` (lines 41-82). The four
`st.selectbox` widgets of a group are embedded as the input function
`chooser`: `chooser g pos` is the value the widget for position `pos`
of group `g` returned (the sentinel "-" or a team name). The function
folds over `GROUP_NAMES` accumulating the standings map and the error
list exactly as the Python loop does. -/
def montar_classificacao_grupos (chooser : String → Nat → String) :
    List (String × List String) × List String :=
  GROUP_NAMES.foldl
    (fun acc g =>
      let pos_choices := [chooser g 1, chooser g 2, chooser g 3, chooser g 4]
      if validar_permutacao pos_choices "-" then
        (acc.1 ++ [(g, pos_choices)], acc.2)
      else
        (acc.1 ++ [(g, [])], acc.2 ++ [group_error_msg g]))
    ([], [])

/-- Embeds `coletar_terceiros` (lines 85-93): the 3rd-place team of every
group whose standing has 4 entries. -/
def coletar_terceiros (standings : List (String × List String)) :
    List (String × String) :=
  standings.foldl
    (fun thirds p =>
      if p.2.length = 4 then thirds ++ [(p.1, p.2.getD 2 "")] else thirds)
    []

/-- Embeds `ROUND32_FIXED` (lines 127-136). -/
def ROUND32_FIXED : List (String × String × String) :=
  [("M73", "2A", "2B"), ("M75", "1F", "2C"), ("M76", "1C", "2F"),
   ("M78", "2E", "2I"), ("M83", "2K", "2L"), ("M84", "1H", "2J"),
   ("M86", "1J", "2H"), ("M88", "2D", "2G")]

/-- Embeds `ROUND32_THIRD_SLOTS` (lines 140-149): for each match, the seed
code of the known opponent and the groups from which its 3rd-placed team
may come. -/
def ROUND32_THIRD_SLOTS : List (String × String × List String) :=
  [("M74", "1E", ["A", "B", "C", "D", "F"]),
   ("M77", "1I", ["C", "D", "F", "G", "H"]),
   ("M79", "1A", ["C", "E", "F", "H", "I"]),
   ("M80", "1L", ["E", "H", "I", "J", "K"]),
   ("M81", "1D", ["B", "E", "F", "I", "J"]),
   ("M82", "1G", ["A", "E", "H", "I", "J"]),
   ("M85", "1B", ["E", "F", "G", "I", "J"]),
   ("M87", "1K", ["D", "E", "I", "J", "L"])]

/-- Embeds `match_ids = list(ROUND32_THIRD_SLOTS.keys())` (line 176):
insertion order of the dict literal. -/
def match_ids : List String := ROUND32_THIRD_SLOTS.map (fun s => s.1)

/-- Embeds the read `_, allowed_groups = ROUND32_THIRD_SLOTS[mid]`
(line 192); `[]` for an absent key (never hit: the engine only looks up
members of `match_ids`). -/
def allowed_groups (mid : String) : List String :=
  match ROUND32_THIRD_SLOTS.lookup mid with
  | some s => s.2
  | none => []

/-- Embeds the dict read `{"1": 0, "2": 1, "3": 2, "4": 3}.get(pos)` of
line 161. -/
def pos_index (pos : Char) : Option Nat :=
  if pos = '1' then some 0
  else if pos = '2' then some 1
  else if pos = '3' then some 2
  else if pos = '4' then some 3
  else none

/-- Embeds `extrair_time` (lines 152-164): resolve a seed code like "2A"
against the standings map. The Python 1-character string `code[1]` used as
a dict key becomes `String.mk [group]`. -/
def extrair_time (code : String) (standings : List (String × List String)) :
    Option String :=
  match code.data with
  | [pos, group] =>
    match standings.lookup (String.mk [group]) with
    | none => none
    | some lst =>
      if lst.length ≠ 4 then none
      else
        match pos_index pos with
        | none => none
        | some i => lst[i]?
  | _ => none

/-- Embeds the recursive `backtrack` of `distribuir_terceiros_nos_jogos`
(lines 182-207). The mutable `assignment` dict is made explicit: on
success the call returns the association list `match_id ↦ (group, team)`
built for the remaining qualified pairs `qs`, given the already-used
match ids `used`. The Python `for mid in match_ids` loop that returns on
the first successful branch and otherwise falls through is embedded as
`List.findSome?` over `match_ids` (first candidate slot yielding a
solution, in the fixed table order). -/
def backtrack (qs : List (String × String)) (used : List String) :
    Option (List (String × String × String)) :=
  match qs with
  | [] => some []
  | (g, t) :: rest =>
    match_ids.findSome? (fun mid =>
      if mid ∈ used then none
      else if g ∈ allowed_groups mid then
        match backtrack rest (mid :: used) with
        | some a => some ((mid, g, t) :: a)
        | none => none
      else none)

/-- Embeds `distribuir_terceiros_nos_jogos` (lines 167-212): length guard,
backtracking search, and the pair (assignment, error message). -/
def distribuir_terceiros_nos_jogos (qualified : List (String × String)) :
    Option (List (String × String × String)) × Option String :=
  if qualified.length ≠ 8 then
    (none, some "Exactly 8 third-placed teams must be qualified.")
  else
    match backtrack qualified [] with
    | none =>
      (none, some "Unable to assign the selected third-placed teams to the Round of 32.")
    | some a => (some a, none)

/-- Embeds `montar_round32` (lines 215-243): the match map
`match_id ↦ (team1, team2, description)`. In Python `team_3` is a plain
string while `t1` may be `None`; both sides are embedded as
`Option String`, with the always-present third-placed team wrapped in
`some`. -/
def montar_round32 (standings : List (String × List String))
    (qualified_thirds : List (String × String)) :
    List (String × (Option String × Option String × String)) × Option String :=
  match distribuir_terceiros_nos_jogos qualified_thirds with
  | (_, some err) => ([], some err)
  | (jt, none) =>
    let jogos_terceiros := jt.getD []
    let fixed := ROUND32_FIXED.map (fun e =>
      (e.1, (extrair_time e.2.1 standings, extrair_time e.2.2 standings,
             e.2.1 ++ " vs " ++ e.2.2)))
    let thirds := ROUND32_THIRD_SLOTS.map (fun e =>
      let gt := (jogos_terceiros.lookup e.1).getD ("", "")
      (e.1, (extrair_time e.2.1 standings, some gt.2,
             e.2.1 ++ " vs " ++ ("3" ++ gt.1))))
    (fixed ++ thirds, none)

/-- Embeds `ROUND16_MATCHES` (lines 249-258). -/
def ROUND16_MATCHES : List (String × String × String) :=
  [("M89", "M74", "M77"), ("M90", "M73", "M75"), ("M91", "M76", "M78"),
   ("M92", "M79", "M80"), ("M93", "M83", "M84"), ("M94", "M81", "M82"),
   ("M95", "M86", "M88"), ("M96", "M85", "M87")]

/-- Embeds `QUARTERS_MATCHES` (lines 260-265). -/
def QUARTERS_MATCHES : List (String × String × String) :=
  [("M97", "M89", "M90"), ("M98", "M93", "M94"),
   ("M99", "M91", "M92"), ("M100", "M95", "M96")]

/-- Embeds `SEMIS_MATCHES` (lines 267-270). -/
def SEMIS_MATCHES : List (String × String × String) :=
  [("M101", "M97", "M98"), ("M102", "M99", "M100")]

/-- Python truthiness of an `Optional[str]`: `None` and `""` are falsy. -/
def falsy (t : Option String) : Bool :=
  match t with
  | none => true
  | some s => s == ""

/-- Embeds the `st.radio` widget used at lines 277-282: the user's choice
is the external input `sel`, and the widget always returns one of the
offered options (index taken modulo the number of options). -/
def st_radio (options : List String) (sel : Nat) : Option String :=
  options[sel % options.length]?

/-- Embeds `escolher_vencedor_ui` (lines 273-282): no selectable winner
while either team is falsy (`None`/empty), otherwise the radio choice
among the two teams. -/
def escolher_vencedor_ui (_match_id : String) (t1 t2 : Option String)
    (sel : Nat) : Option String :=
  if falsy t1 || falsy t2 then none
  else st_radio [t1.getD "", t2.getD ""] sel

/-- Python `dict.get(k)` on a `Dict[str, Optional[str]]`: `None` when the
key is absent, the stored optional value otherwise. -/
def dget (d : List (String × Option String)) (k : String) : Option String :=
  (d.lookup k).getD none

/-- Embeds the third-place-match block (lines 409-433) as a function of
the quarterfinal winners map `winnersQ`, the semifinal winners map
`winnersS` and the radio input `sel`. Returns the displayed participants
(the two semifinal losers) and the selected third-place winner, or
`(none, none)` while waiting for semifinal results. -/
def third_place_block (winnersQ winnersS : List (String × Option String))
    (sel : Nat) : Option (Option String × Option String) × Option String :=
  let sf1 := (SEMIS_MATCHES.lookup "M101").getD ("", "")
  let sf1_t1 := dget winnersQ sf1.1
  let sf1_t2 := dget winnersQ sf1.2
  let sf1_winner := dget winnersS "M101"
  let sf2 := (SEMIS_MATCHES.lookup "M102").getD ("", "")
  let sf2_t1 := dget winnersQ sf2.1
  let sf2_t2 := dget winnersQ sf2.2
  let sf2_winner := dget winnersS "M102"
  if !falsy sf1_t1 && !falsy sf1_t2 && !falsy sf1_winner &&
     !falsy sf2_t1 && !falsy sf2_t2 && !falsy sf2_winner then
    let sf1_loser := if sf1_winner == sf1_t1 then sf1_t2 else sf1_t1
    let sf2_loser := if sf2_winner == sf2_t1 then sf2_t2 else sf2_t1
    ((sf1_loser, sf2_loser),
     escolher_vencedor_ui "M103 (Third Place)" sf1_loser sf2_loser sel)
  else (none, none)

/-- Embeds `order32` (lines 339-344). -/
def order32 : List String :=
  ["M73", "M74", "M75", "M76", "M77", "M78", "M79", "M80",
   "M81", "M82", "M83", "M84", "M85", "M86", "M87", "M88"]

/-- The match identifiers for which the UI calls `escolher_vencedor_ui`,
i.e. every knockout match that can receive a winner selection: the 16
round-of-32 matches (line 355), the round-of-16, quarterfinal and
semifinal matches (lines 370, 385, 400), the third-place match (line 427)
and the final (line 440). -/
def all_knockout_match_ids : List String :=
  order32 ++ ROUND16_MATCHES.map (fun m => m.1) ++
  QUARTERS_MATCHES.map (fun m => m.1) ++ SEMIS_MATCHES.map (fun m => m.1) ++
  ["M103 (Third Place)", "M104 (Final)"]

/-! ## Helper lemmas -/

/-- The Python idiom `len(l) == len(set(l))` detects exactly the
duplicate-free lists. -/
theorem length_eq_dedup_length_iff {l : List String} :
    l.length = l.dedup.length ↔ l.Nodup := by
  constructor
  · intro h
    have hs : List.Sublist l.dedup l := l.dedup_sublist
    have he : l.dedup = l := hs.eq_of_length h.symm
    rw [← he]
    exact l.nodup_dedup
  · intro h
    rw [List.dedup_eq_self.mpr h]

/-- Spec-side restatement of the ordinal suffix rule, written from the
spec sentence: "th" when n % 100 is in [10,20], else "st"/"nd"/"rd" when
n % 10 is 1/2/3, else "th". -/
def ordinalSuffixSpec (n : Int) : String :=
  if 10 ≤ n % 100 ∧ n % 100 ≤ 20 then "th"
  else if n % 10 = 1 then "st"
  else if n % 10 = 2 then "nd"
  else if n % 10 = 3 then "rd"
  else "th"

/-! ## Claim theorems -/

/-- C7: `ordinal` is a pure total function returning the decimal rendering
of n followed by "th" when n % 100 is in [10,20], else "st"/"nd"/"rd" when
n % 10 is 1/2/3, else "th"; in particular it returns "1st","2nd","3rd",
"4th" for 1-4, "11th","12th","13th" for 11-13 and "21st","22nd","23rd"
for 21-23. -/
theorem C7_ordinal_characterization :
    (∀ n : Int, ordinal n = toString n ++ ordinalSuffixSpec n) ∧
    ordinal 1 = "1st" ∧ ordinal 2 = "2nd" ∧ ordinal 3 = "3rd" ∧
    ordinal 4 = "4th" ∧ ordinal 11 = "11th" ∧ ordinal 12 = "12th" ∧
    ordinal 13 = "13th" ∧ ordinal 21 = "21st" ∧ ordinal 22 = "22nd" ∧
    ordinal 23 = "23rd" :=
  ⟨fun _ => rfl, rfl, rfl, rfl, rfl, rfl, rfl, rfl, rfl, rfl, rfl⟩

/-- Characterization of `validar_permutacao`, shared helper. -/
theorem validar_permutacao_iff (choices : List String) (empty : String) :
    validar_permutacao choices empty = true ↔
      empty ∉ choices ∧ choices.Nodup := by
  unfold validar_permutacao
  by_cases h : empty ∈ choices
  · simp [h]
  · simp [h, length_eq_dedup_length_iff]

/-- C8: `validar_permutacao choices empty` is true iff no entry equals the
empty marker and all entries are pairwise distinct. -/
theorem C8_validar_permutacao_iff :
    ∀ (choices : List String) (empty : String),
      validar_permutacao choices empty = true ↔
        empty ∉ choices ∧ choices.Nodup :=
  fun choices empty => validar_permutacao_iff choices empty

/-- Witness for C8: a concrete duplicate-free marker-free list is
accepted. -/
theorem C8_validar_permutacao_iff_witness :
    validar_permutacao ["a", "b", "c", "d"] "-" = true :=
  (C8_validar_permutacao_iff ["a", "b", "c", "d"] "-").mpr
    ⟨by decide, by decide⟩

/-- C6 counterexample: the winner-selection input has one entry per
knockout match, but there are 32 such matches, not 56 as the claim
states. -/
theorem C6_counterexample : all_knockout_match_ids.length ≠ 56 := by decide

/-- C6 (amended): the winner-selection input comprises one possible entry
per knockout match across rounds 2-6 (the ids are pairwise distinct),
giving 32 possible entries in total (16 + 8 + 4 + 2 + 1 third-place +
1 final). -/
theorem C6_winner_entry_count :
    all_knockout_match_ids.Nodup ∧
    all_knockout_match_ids.length = 16 + 8 + 4 + 2 + 1 + 1 := by decide

/-- C10: the 16 sources of `ROUND16_MATCHES` are exactly the 16
round-of-32 match ids each once, the 8 sources of `QUARTERS_MATCHES` are
exactly the 8 round-of-16 ids each once, and the 4 sources of
`SEMIS_MATCHES` are exactly the 4 quarterfinal ids each once; every id
list involved is duplicate-free, so every match feeds exactly one
later-round match. -/
theorem C10_bracket_sources_partition :
    (ROUND16_MATCHES.flatMap (fun m => [m.2.1, m.2.2])).Perm order32 ∧
    order32.Perm (ROUND32_FIXED.map (fun m => m.1) ++ match_ids) ∧
    (QUARTERS_MATCHES.flatMap (fun m => [m.2.1, m.2.2])).Perm
      (ROUND16_MATCHES.map (fun m => m.1)) ∧
    (SEMIS_MATCHES.flatMap (fun m => [m.2.1, m.2.2])).Perm
      (QUARTERS_MATCHES.map (fun m => m.1)) ∧
    order32.Nodup ∧ (ROUND16_MATCHES.map (fun m => m.1)).Nodup ∧
    (QUARTERS_MATCHES.map (fun m => m.1)).Nodup ∧
    (SEMIS_MATCHES.map (fun m => m.1)).Nodup := by decide

/-- C5: recomputation is deterministic: identical input snapshots give
identical round-of-32 assignments and identical bracket output (the
engine processes qualified pairs and candidate slots in one fixed
order, and the embedding is a pure function of the snapshot). -/
theorem C5_recomputation_deterministic :
    ∀ (s₁ s₂ : List (String × List String))
      (q₁ q₂ : List (String × String)),
      s₁ = s₂ → q₁ = q₂ →
        distribuir_terceiros_nos_jogos q₁ = distribuir_terceiros_nos_jogos q₂ ∧
        montar_round32 s₁ q₁ = montar_round32 s₂ q₂ := by
  intro s₁ s₂ q₁ q₂ hs hq
  subst hs
  subst hq
  exact ⟨rfl, rfl⟩

/-- Witness for C5 at a concrete snapshot. -/
theorem C5_recomputation_deterministic_witness :
    distribuir_terceiros_nos_jogos [("A", "tA")] =
      distribuir_terceiros_nos_jogos [("A", "tA")] ∧
    montar_round32 INITIAL_GROUPS [("A", "tA")] =
      montar_round32 INITIAL_GROUPS [("A", "tA")] :=
  C5_recomputation_deterministic INITIAL_GROUPS INITIAL_GROUPS
    [("A", "tA")] [("A", "tA")] rfl rfl

/-- C4: a match with an unresolved (None or empty) participant admits no
winner selection, and any recorded winner equals one of the two resolved
participants. -/
theorem C4_winner_among_participants :
    ∀ (mid : String) (t1 t2 : Option String) (sel : Nat),
      ((falsy t1 || falsy t2) = true →
        escolher_vencedor_ui mid t1 t2 sel = none) ∧
      (∀ w, escolher_vencedor_ui mid t1 t2 sel = some w →
        some w = t1 ∨ some w = t2) := by
  intro mid t1 t2 sel
  constructor
  · intro h
    simp [escolher_vencedor_ui, h]
  · intro w hw
    unfold escolher_vencedor_ui at hw
    by_cases h : (falsy t1 || falsy t2) = true
    · simp [h] at hw
    · rw [if_neg h] at hw
      rcases t1 with _ | s1
      · simp [falsy] at h
      rcases t2 with _ | s2
      · simp [falsy] at h
      unfold st_radio at hw
      have h2 : sel % 2 = 0 ∨ sel % 2 = 1 := by omega
      rcases h2 with h2 | h2 <;> simp [h2] at hw <;> simp [hw]

/-- Witness for C4: a pending match yields no winner, and a recorded
winner is one of the participants. -/
theorem C4_winner_among_participants_witness :
    escolher_vencedor_ui "M73" none (some "x") 0 = none ∧
    (some "a" = some "a" ∨ some "a" = (some "b" : Option String)) :=
  ⟨(C4_winner_among_participants "M73" none (some "x") 0).1 (by decide),
   (C4_winner_among_participants "M73" (some "a") (some "b") 0).2 "a" (by rfl)⟩

/-- A falsy check on a present nonempty string is false. -/
theorem falsy_some_eq_false {s : String} (h : s ≠ "") :
    falsy (some s) = false := by
  simp [falsy, h]

/-- Evaluation of the third-place block: the fixed lookups into
`SEMIS_MATCHES` reduce, leaving a function of the six relevant map
entries. -/
theorem third_place_block_eval
    (winnersQ winnersS : List (String × Option String)) (sel : Nat) :
    third_place_block winnersQ winnersS sel =
      (if !falsy (dget winnersQ "M97") && !falsy (dget winnersQ "M98") &&
          !falsy (dget winnersS "M101") && !falsy (dget winnersQ "M99") &&
          !falsy (dget winnersQ "M100") && !falsy (dget winnersS "M102") then
         (some (if dget winnersS "M101" == dget winnersQ "M97" then
                  dget winnersQ "M98" else dget winnersQ "M97",
                if dget winnersS "M102" == dget winnersQ "M99" then
                  dget winnersQ "M100" else dget winnersQ "M99"),
          escolher_vencedor_ui "M103 (Third Place)"
            (if dget winnersS "M101" == dget winnersQ "M97" then
               dget winnersQ "M98" else dget winnersQ "M97")
            (if dget winnersS "M102" == dget winnersQ "M99" then
               dget winnersQ "M100" else dget winnersQ "M99") sel)
       else (none, none)) := rfl

/-- C2: once both quarterfinal feeder pairs and both semifinal winners
are recorded, the third-place match's participants are exactly the two
semifinal losers (each the participant of its semifinal that is not the
recorded winner); while any of those inputs is missing the block shows
waiting and offers no selectable winner. -/
theorem C2_third_place_gets_losers :
    (∀ (winnersQ winnersS : List (String × Option String)) (sel : Nat)
       (t1 t2 t3 t4 w1 w2 : String),
       dget winnersQ "M97" = some t1 → dget winnersQ "M98" = some t2 →
       dget winnersQ "M99" = some t3 → dget winnersQ "M100" = some t4 →
       dget winnersS "M101" = some w1 → dget winnersS "M102" = some w2 →
       t1 ≠ "" → t2 ≠ "" → t3 ≠ "" → t4 ≠ "" → w1 ≠ "" → w2 ≠ "" →
       (w1 = t1 ∨ w1 = t2) → (w2 = t3 ∨ w2 = t4) → t1 ≠ t2 → t3 ≠ t4 →
       ∃ l1 l2,
         (third_place_block winnersQ winnersS sel).1 = some (some l1, some l2) ∧
         (l1 = t1 ∨ l1 = t2) ∧ l1 ≠ w1 ∧ (l2 = t3 ∨ l2 = t4) ∧ l2 ≠ w2) ∧
    (∀ (winnersQ winnersS : List (String × Option String)) (sel : Nat),
       (falsy (dget winnersQ "M97") || falsy (dget winnersQ "M98") ||
        falsy (dget winnersS "M101") || falsy (dget winnersQ "M99") ||
        falsy (dget winnersQ "M100") || falsy (dget winnersS "M102")) = true →
       third_place_block winnersQ winnersS sel = (none, none)) := by
  constructor
  · intro winnersQ winnersS sel t1 t2 t3 t4 w1 w2 h1 h2 h3 h4 hw1 hw2
      n1 n2 n3 n4 nw1 nw2 hin1 hin2 hne1 hne2
    rw [third_place_block_eval]
    simp only [h1, h2, h3, h4, hw1, hw2, falsy_some_eq_false n1,
      falsy_some_eq_false n2, falsy_some_eq_false n3, falsy_some_eq_false n4,
      falsy_some_eq_false nw1, falsy_some_eq_false nw2, Bool.not_false,
      Bool.and_self, if_true]
    rcases hin1 with hq1 | hq1 <;> rcases hin2 with hq2 | hq2 <;>
      subst hq1 <;> subst hq2
    · exact ⟨t2, t4, by simp, Or.inr rfl, Ne.symm hne1, Or.inr rfl, Ne.symm hne2⟩
    · exact ⟨t2, t3, by simp [Ne.symm hne2], Or.inr rfl, Ne.symm hne1,
        Or.inl rfl, hne2⟩
    · exact ⟨t1, t4, by simp [Ne.symm hne1], Or.inl rfl, hne1,
        Or.inr rfl, Ne.symm hne2⟩
    · exact ⟨t1, t3, by simp [Ne.symm hne1, Ne.symm hne2], Or.inl rfl, hne1,
        Or.inl rfl, hne2⟩
  · intro winnersQ winnersS sel h
    rw [third_place_block_eval]
    simp only [Bool.or_eq_true] at h
    rcases h with ((((h | h) | h) | h) | h) | h <;> simp [h]

/-- Witness for C2 at a concrete state: semifinal winners a (over b)
and d (over c) give third-place participants b and c; a missing
semifinal winner gives the waiting state. -/
theorem C2_third_place_gets_losers_witness :
    (∃ l1 l2,
      (third_place_block
        [("M97", some "a"), ("M98", some "b"), ("M99", some "c"), ("M100", some "d")]
        [("M101", some "a"), ("M102", some "d")] 0).1 = some (some l1, some l2) ∧
      (l1 = "a" ∨ l1 = "b") ∧ l1 ≠ "a" ∧ (l2 = "c" ∨ l2 = "d") ∧ l2 ≠ "d") ∧
    third_place_block
      [("M97", some "a"), ("M98", some "b"), ("M99", some "c"), ("M100", some "d")]
      [("M102", some "d")] 0 = (none, none) :=
  ⟨C2_third_place_gets_losers.1
      [("M97", some "a"), ("M98", some "b"), ("M99", some "c"), ("M100", some "d")]
      [("M101", some "a"), ("M102", some "d")] 0 "a" "b" "c" "d" "a" "d"
      rfl rfl rfl rfl rfl rfl (by decide) (by decide) (by decide) (by decide)
      (by decide) (by decide) (Or.inl rfl) (Or.inr rfl) (by decide) (by decide),
   C2_third_place_gets_losers.2
      [("M97", some "a"), ("M98", some "b"), ("M99", some "c"), ("M100", some "d")]
      [("M102", some "d")] 0 (by decide)⟩

/-- A seed code whose character list is not a pair never resolves. -/
theorem extrair_time_eq_none_of_len (code : String)
    (standings : List (String × List String)) (h : code.data.length ≠ 2) :
    extrair_time code standings = none := by
  unfold extrair_time
  match hd : code.data with
  | [] => rfl
  | [p] => rfl
  | p :: q :: r :: rest => rfl
  | [p, q] => exact absurd (by simp [hd] : code.data.length = 2) h

/-- Evaluation of `extrair_time` on a 2-character code. -/
theorem extrair_time_two (code : String)
    (standings : List (String × List String)) (p g : Char)
    (hd : code.data = [p, g]) :
    extrair_time code standings =
      (match standings.lookup (String.mk [g]) with
       | none => none
       | some lst =>
         if lst.length ≠ 4 then none
         else
           match pos_index p with
           | none => none
           | some i => lst[i]?) := by
  unfold extrair_time
  rw [hd]

/-- The position dict lookup fails exactly off the keys 1,2,3,4. -/
theorem pos_index_eq_none_iff (p : Char) :
    pos_index p = none ↔ p ∉ (['1', '2', '3', '4'] : List Char) := by
  unfold pos_index
  by_cases h1 : p = '1' <;> by_cases hh2 : p = '2' <;>
    by_cases h3 : p = '3' <;> by_cases h4 : p = '4' <;>
    simp [h1, hh2, h3, h4]

/-- A successful position lookup is an index below 4. -/
theorem pos_index_lt (p : Char) (i : Nat) (h : pos_index p = some i) :
    i < 4 := by
  unfold pos_index at h
  split_ifs at h <;> simp_all <;> omega

/-- C3 counterexample: a standing of length 4 whose entries are neither
distinct nor meaningful is not "complete" in the claim's sense (4
distinct non-empty entries), yet `extrair_time` resolves a code against
it instead of returning Unresolved: it only checks the length. -/
theorem C3_counterexample :
    extrair_time "1A" [("A", ["x", "x", "x", "x"])] = some "x" ∧
    ¬ (["x", "x", "x", "x"] : List String).Nodup := by decide

/-- C3 (amended): `extrair_time` returns none exactly when the code is
not exactly 2 characters, the group letter is not a key of the
standings, the stored standing does not have exactly 4 entries, or the
position character is not one of 1,2,3,4; otherwise it returns the entry
stored at the coded position. In particular "2A" resolves to
"South Africa" in the Group A standing of the spec's example, while
"5A" and "2Z" are Unresolved. -/
theorem C3_extrair_time_characterization :
    (∀ (code : String) (standings : List (String × List String)),
       extrair_time code standings = none ↔
         code.length ≠ 2 ∨
         ∃ p g, code.data = [p, g] ∧
           (standings.lookup (String.mk [g]) = none ∨
            (∃ lst, standings.lookup (String.mk [g]) = some lst ∧
              lst.length ≠ 4) ∨
            p ∉ (['1', '2', '3', '4'] : List Char))) ∧
    (∀ (code : String) (standings : List (String × List String))
       (p g : Char) (lst : List String) (i : Nat),
       code.data = [p, g] →
       standings.lookup (String.mk [g]) = some lst →
       lst.length = 4 →
       ((p = '1' ∧ i = 0) ∨ (p = '2' ∧ i = 1) ∨
        (p = '3' ∧ i = 2) ∨ (p = '4' ∧ i = 3)) →
       extrair_time code standings = lst[i]?) ∧
    extrair_time "2A"
      [("A", ["Mexico", "South Africa", "South Korea", "UEFA D (DEN/MKD/CZE/IRL)"])] =
      some "South Africa" ∧
    extrair_time "5A"
      [("A", ["Mexico", "South Africa", "South Korea", "UEFA D (DEN/MKD/CZE/IRL)"])] =
      none ∧
    extrair_time "2Z"
      [("A", ["Mexico", "South Africa", "South Korea", "UEFA D (DEN/MKD/CZE/IRL)"])] =
      none := by
  refine ⟨?_, ?_, by decide, by decide, by decide⟩
  · intro code standings
    have hlen : code.length = code.data.length := rfl
    by_cases hl2 : code.data.length = 2
    · obtain ⟨p, g, hd⟩ : ∃ p g, code.data = [p, g] :=
        List.length_eq_two.mp hl2
      have h2 : ¬ (code.length ≠ 2) := by simp [hlen, hl2]
      rw [extrair_time_two code standings p g hd, or_iff_right h2]
      cases hk : standings.lookup (String.mk [g]) with
      | none =>
        constructor
        · intro _
          exact ⟨p, g, hd, Or.inl hk⟩
        · intro _
          rfl
      | some lst =>
        show (if lst.length ≠ 4 then none
              else
                match pos_index p with
                | none => none
                | some i => lst[i]?) = none ↔ _
        by_cases h4 : lst.length = 4
        · rw [if_neg (not_not.mpr h4)]
          cases hi : pos_index p with
          | none =>
            constructor
            · intro _
              exact ⟨p, g, hd, Or.inr (Or.inr ((pos_index_eq_none_iff p).mp hi))⟩
            · intro _
              rfl
          | some i =>
            have hlt : i < 4 := pos_index_lt p i hi
            constructor
            · intro h
              exfalso
              have h' : lst[i]? = none := h
              rw [List.getElem?_eq_getElem (show i < lst.length by omega)] at h'
              exact Option.noConfusion h'
            · rintro ⟨q, r, hqr, hC⟩
              obtain ⟨hq, hr⟩ : p = q ∧ g = r := by
                have : ([p, g] : List Char) = [q, r] := hd ▸ hqr
                injection this with hq rest
                injection rest with hr _
                exact ⟨hq, hr⟩
              subst hq
              subst hr
              rcases hC with hc | ⟨lst', hl', hn⟩ | hc
              · rw [hk] at hc
                exact Option.noConfusion hc
              · rw [hk] at hl'
                exact absurd h4 (Option.some.inj hl' ▸ hn)
              · exact absurd ((pos_index_eq_none_iff p).mpr hc) (by simp [hi])
        · rw [if_pos h4]
          constructor
          · intro _
            exact ⟨p, g, hd, Or.inr (Or.inl ⟨lst, hk, h4⟩)⟩
          · intro _
            rfl
    · have h2 : code.length ≠ 2 := by rw [hlen]; exact hl2
      rw [extrair_time_eq_none_of_len code standings hl2]
      exact iff_of_true rfl (Or.inl h2)
  · intro code standings p g lst i hd hk h4 hi
    rw [extrair_time_two code standings p g hd, hk]
    show (if lst.length ≠ 4 then none
          else
            match pos_index p with
            | none => none
            | some j => lst[j]?) = lst[i]?
    rw [if_neg (not_not.mpr h4)]
    rcases hi with ⟨hp, hi⟩ | ⟨hp, hi⟩ | ⟨hp, hi⟩ | ⟨hp, hi⟩ <;>
      subst hp <;> subst hi <;> rfl

/-- Unrolling of the fold in `montar_classificacao_grupos`: the standings
map lists every processed group with its validated choices (or `[]`), and
the error list holds one message per invalid group. -/
theorem montar_fold (chooser : String → Nat → String) (gs : List String)
    (acc : List (String × List String) × List String) :
    gs.foldl
      (fun acc g =>
        let pos_choices := [chooser g 1, chooser g 2, chooser g 3, chooser g 4]
        if validar_permutacao pos_choices "-" then
          (acc.1 ++ [(g, pos_choices)], acc.2)
        else
          (acc.1 ++ [(g, [])], acc.2 ++ [group_error_msg g])) acc =
      (acc.1 ++ gs.map (fun g =>
          (g, if validar_permutacao
                  [chooser g 1, chooser g 2, chooser g 3, chooser g 4] "-" then
                [chooser g 1, chooser g 2, chooser g 3, chooser g 4]
              else [])),
       acc.2 ++ (gs.filter (fun g =>
          !validar_permutacao
              [chooser g 1, chooser g 2, chooser g 3, chooser g 4] "-")).map
          group_error_msg) := by
  induction gs generalizing acc with
  | nil => simp
  | cons g gs ih =>
    rw [List.foldl_cons]
    by_cases h : validar_permutacao
        [chooser g 1, chooser g 2, chooser g 3, chooser g 4] "-" = true
    · simp only [h, if_true, ih, List.map_cons, List.filter_cons, h,
        Bool.not_true, List.append_assoc, List.singleton_append]
      simp [h]
    · simp only [Bool.not_eq_true] at h
      simp only [h, Bool.false_eq_true, if_false, ih, List.map_cons,
        List.filter_cons, Bool.not_false, List.append_assoc,
        List.singleton_append]
      simp [h]

/-- Closed form of `montar_classificacao_grupos`. -/
theorem montar_classificacao_grupos_eq (chooser : String → Nat → String) :
    montar_classificacao_grupos chooser =
      (GROUP_NAMES.map (fun g =>
          (g, if validar_permutacao
                  [chooser g 1, chooser g 2, chooser g 3, chooser g 4] "-" then
                [chooser g 1, chooser g 2, chooser g 3, chooser g 4]
              else [])),
       (GROUP_NAMES.filter (fun g =>
          !validar_permutacao
              [chooser g 1, chooser g 2, chooser g 3, chooser g 4] "-")).map
          group_error_msg) := by
  unfold montar_classificacao_grupos
  rw [montar_fold]
  simp

/-- The per-group error messages are pairwise distinct across the 12
groups. -/
theorem group_error_msg_inj :
    ∀ g ∈ GROUP_NAMES, ∀ g' ∈ GROUP_NAMES,
      group_error_msg g = group_error_msg g' → g = g' := by decide

/-- C9: every group is bound either to a 4-entry standing with no empty
marker and no duplicate, or to the empty list, and the group's error
message is emitted exactly when it is bound to the empty list. -/
theorem C9_standings_binding_invariant :
    ∀ (chooser : String → Nat → String) (g : String) (l : List String),
      (g, l) ∈ (montar_classificacao_grupos chooser).1 →
        (l = [] ∨ (l.length = 4 ∧ "-" ∉ l ∧ l.Nodup)) ∧
        (l = [] ↔ group_error_msg g ∈ (montar_classificacao_grupos chooser).2) := by
  intro chooser g l hmem
  rw [montar_classificacao_grupos_eq] at hmem ⊢
  simp only [List.mem_map] at hmem
  obtain ⟨g0, hg0, heq⟩ := hmem
  rw [Prod.mk.injEq] at heq
  obtain ⟨hg, hl⟩ := heq
  subst hg
  cases hv : validar_permutacao
      [chooser g0 1, chooser g0 2, chooser g0 3, chooser g0 4] "-" with
  | true =>
    rw [hv] at hl
    simp at hl
    subst hl
    obtain ⟨hne, hnd⟩ := (validar_permutacao_iff _ "-").mp hv
    refine ⟨Or.inr ⟨rfl, hne, hnd⟩, ?_, ?_⟩
    · intro habs
      exact absurd habs (by simp)
    · intro hmsg
      exfalso
      simp only [List.mem_map, List.mem_filter] at hmsg
      obtain ⟨g', ⟨hg'mem, hg'filter⟩, hmsgeq⟩ := hmsg
      have hgg : g' = g0 := group_error_msg_inj g' hg'mem g0 hg0 hmsgeq
      subst hgg
      rw [hv] at hg'filter
      exact absurd hg'filter (by simp)
  | false =>
    rw [hv] at hl
    simp at hl
    subst hl
    refine ⟨Or.inl rfl, ?_, fun _ => rfl⟩
    intro _
    simp only [List.mem_map, List.mem_filter]
    exact ⟨g0, ⟨hg0, by rw [hv]; rfl⟩, rfl⟩

/-- Witness for C9 at a concrete chooser filling every group validly. -/
theorem C9_standings_binding_invariant_witness :
    (["A1", "A2", "A3", "A4"] = ([] : List String) ∨
      ((["A1", "A2", "A3", "A4"] : List String).length = 4 ∧
        "-" ∉ ["A1", "A2", "A3", "A4"] ∧
        (["A1", "A2", "A3", "A4"] : List String).Nodup)) ∧
    (["A1", "A2", "A3", "A4"] = ([] : List String) ↔
      group_error_msg "A" ∈
        (montar_classificacao_grupos (fun g i => g ++ toString i)).2) :=
  C9_standings_binding_invariant (fun g i => g ++ toString i) "A"
    ["A1", "A2", "A3", "A4"] (by decide)

/-! ## Round-of-32 assignment engine: soundness and completeness -/

/-- A complete constraint-respecting assignment for the qualified pairs
`qs`: a duplicate-free list of slots, one per pair in order, each a
third-place slot not yet used whose eligible-group set contains the
pair's group. The claim's hypothesis "at least one bijection exists" is
the existence of such a list. -/
def ValidMatching (qs : List (String × String)) (used ms : List String) :
    Prop :=
  ms.Nodup ∧
  List.Forall₂
    (fun q s => s ∈ match_ids ∧ s ∉ used ∧ q.1 ∈ allowed_groups s) qs ms

/-- Unfolding of `backtrack` on an empty pair list. -/
theorem backtrack_nil (used : List String) : backtrack [] used = some [] := rfl

/-- Unfolding of `backtrack` on a pair list with head. -/
theorem backtrack_cons (g t : String) (rest : List (String × String))
    (used : List String) :
    backtrack ((g, t) :: rest) used =
      match_ids.findSome? (fun mid =>
        if mid ∈ used then none
        else if g ∈ allowed_groups mid then
          match backtrack rest (mid :: used) with
          | some a => some ((mid, g, t) :: a)
          | none => none
        else none) := rfl

/-- Soundness of the backtracking search: a returned assignment pairs the
qualified pairs, in order, with pairwise-distinct unused slots whose
eligible groups contain the respective pair's group. -/
theorem backtrack_sound :
    ∀ (qs : List (String × String)) (used : List String)
      (a : List (String × String × String)),
      backtrack qs used = some a →
        a.map (fun p => p.2) = qs ∧
        (∀ p ∈ a, p.1 ∈ match_ids ∧ p.1 ∉ used ∧
          p.2.1 ∈ allowed_groups p.1) ∧
        (a.map (fun p => p.1)).Nodup := by
  intro qs
  induction qs with
  | nil =>
    intro used a h
    rw [backtrack_nil] at h
    injection h with h
    subst h
    simp
  | cons q rest ih =>
    intro used a h
    obtain ⟨g, t⟩ := q
    rw [backtrack_cons] at h
    obtain ⟨mid, hmid_mem, hmid⟩ := List.exists_of_findSome?_eq_some h
    by_cases hused : mid ∈ used
    · rw [if_pos hused] at hmid
      exact Option.noConfusion hmid
    rw [if_neg hused] at hmid
    by_cases hallow : g ∈ allowed_groups mid
    case neg =>
      rw [if_neg hallow] at hmid
      exact Option.noConfusion hmid
    rw [if_pos hallow] at hmid
    cases hbt : backtrack rest (mid :: used) with
    | none =>
      rw [hbt] at hmid
      exact Option.noConfusion hmid
    | some a' =>
      rw [hbt] at hmid
      have hmid' : some ((mid, g, t) :: a') = some a := hmid
      injection hmid' with hmid'
      subst hmid'
      obtain ⟨hmap, hall, hnd⟩ := ih (mid :: used) a' hbt
      refine ⟨by simp [hmap], ?_, ?_⟩
      · intro p hp
        rcases List.mem_cons.mp hp with rfl | hp'
        · exact ⟨hmid_mem, hused, hallow⟩
        · obtain ⟨h1, h2, h3⟩ := hall p hp'
          exact ⟨h1, fun hin => h2 (List.mem_cons_of_mem _ hin), h3⟩
      · rw [List.map_cons]
        refine List.nodup_cons.mpr ⟨?_, hnd⟩
        intro hmm
        obtain ⟨p, hp, hpe⟩ := List.mem_map.mp hmm
        exact (hall p hp).2.1 (hpe ▸ List.mem_cons_self _ _)

/-- Extending the avoided-slot set by a slot that the matching does not
use preserves the matching. -/
theorem forall2_avoid (m : String) :
    ∀ {qs : List (String × String)} {ms used : List String},
      m ∉ ms →
      List.Forall₂
        (fun q s => s ∈ match_ids ∧ s ∉ used ∧ q.1 ∈ allowed_groups s)
        qs ms →
      List.Forall₂
        (fun q s => s ∈ match_ids ∧ s ∉ (m :: used) ∧
          q.1 ∈ allowed_groups s) qs ms := by
  intro qs ms used hm h
  induction h with
  | nil => exact List.Forall₂.nil
  | @cons q s qs' ms' hqm hrest ih =>
    have hm' : m ∉ ms' := fun hx => hm (List.mem_cons_of_mem _ hx)
    refine List.Forall₂.cons ⟨hqm.1, ?_, hqm.2.2⟩ (ih hm')
    intro hx
    rcases List.mem_cons.mp hx with he | hin
    · subst he
      exact hm (List.mem_cons_self _ _)
    · exact hqm.2.1 hin

/-- Completeness of the backtracking search: whenever some complete
constraint-respecting assignment avoiding `used` exists, the search
succeeds. -/
theorem backtrack_complete :
    ∀ (qs : List (String × String)) (used ms : List String),
      ms.Nodup →
      List.Forall₂
        (fun q s => s ∈ match_ids ∧ s ∉ used ∧ q.1 ∈ allowed_groups s)
        qs ms →
      (backtrack qs used).isSome = true := by
  intro qs
  induction qs with
  | nil =>
    intro used ms _ _
    rw [backtrack_nil]
    rfl
  | cons q rest ih =>
    intro used ms hnd hf
    obtain ⟨g, t⟩ := q
    cases hf with
    | @cons _ m _ ms' hqm hrest =>
      obtain ⟨hm_ids, hm_used, hm_allow⟩ := hqm
      have hnd' : ms'.Nodup := (List.nodup_cons.mp hnd).2
      have hmnotin : m ∉ ms' := (List.nodup_cons.mp hnd).1
      have hbt := ih (m :: used) ms' hnd' (forall2_avoid m hmnotin hrest)
      cases hres : backtrack ((g, t) :: rest) used with
      | some a => rfl
      | none =>
        exfalso
        rw [backtrack_cons] at hres
        rw [List.findSome?_eq_none_iff] at hres
        have hm := hres m hm_ids
        rw [if_neg hm_used, if_pos hm_allow] at hm
        cases hbt2 : backtrack rest (m :: used) with
        | none =>
          rw [hbt2] at hbt
          exact absurd hbt (by simp)
        | some a' =>
          rw [hbt2] at hm
          exact Option.noConfusion hm

/-- C1: on a list of exactly 8 qualified pairs the engine returns a
complete constraint-respecting bijection whenever one exists (slots a
permutation of the 8 third-place slots, the assigned pairs exactly the
qualified pairs, eligibility respected); when none exists it returns no
assignment and the descriptive error; and on any list whose length is
not 8 it returns the length error without searching. -/
theorem C1_assignment_engine :
    ∀ qualified : List (String × String),
      (qualified.length ≠ 8 →
        distribuir_terceiros_nos_jogos qualified =
          (none, some "Exactly 8 third-placed teams must be qualified.")) ∧
      (qualified.length = 8 →
        (∃ ms, ValidMatching qualified [] ms) →
        ∃ a, distribuir_terceiros_nos_jogos qualified = (some a, none) ∧
          a.map (fun p => p.2) = qualified ∧
          (a.map (fun p => p.1)).Perm match_ids ∧
          ∀ p ∈ a, p.2.1 ∈ allowed_groups p.1) ∧
      (qualified.length = 8 →
        (¬ ∃ ms, ValidMatching qualified [] ms) →
        distribuir_terceiros_nos_jogos qualified =
          (none, some "Unable to assign the selected third-placed teams to the Round of 32.")) := by
  intro qualified
  refine ⟨?_, ?_, ?_⟩
  · intro hlen
    unfold distribuir_terceiros_nos_jogos
    rw [if_pos hlen]
  · rintro hlen ⟨ms, hndms, hf⟩
    have hsome := backtrack_complete qualified [] ms hndms hf
    cases hbt : backtrack qualified [] with
    | none =>
      rw [hbt] at hsome
      exact absurd hsome (by simp)
    | some a =>
      obtain ⟨hmap, hall, hnd⟩ := backtrack_sound qualified [] a hbt
      refine ⟨a, ?_, hmap, ?_, ?_⟩
      · unfold distribuir_terceiros_nos_jogos
        rw [if_neg (by omega), hbt]
      · have hsub : (a.map (fun p => p.1)) ⊆ match_ids := by
          intro x hx
          obtain ⟨p, hp, hpe⟩ := List.mem_map.mp hx
          exact hpe ▸ (hall p hp).1
        have hlen8 : (a.map (fun p => p.1)).length = 8 := by
          rw [List.length_map]
          have hq := congrArg List.length hmap
          rw [List.length_map] at hq
          omega
        refine (List.subperm_of_subset hnd hsub).perm_of_length_le ?_
        rw [hlen8]
        decide
      · intro p hp
        exact (hall p hp).2.2
  · intro hlen hno
    unfold distribuir_terceiros_nos_jogos
    rw [if_neg (by omega)]
    cases hbt : backtrack qualified [] with
    | none => rfl
    | some a =>
      exfalso
      obtain ⟨hmap, hall, hnd⟩ := backtrack_sound qualified [] a hbt
      apply hno
      refine ⟨a.map (fun p => p.1), hnd, ?_⟩
      rw [← hmap, List.forall₂_map_left_iff, List.forall₂_map_right_iff,
        List.forall₂_same]
      intro p hp
      exact hall p hp

/-- Witness for C1: a concrete qualifiable set (one third from each of
groups A-H) is assigned completely; the explicit slot list below is a
valid matching discharging the existence hypothesis. -/
theorem C1_assignment_engine_witness :
    ∃ a, distribuir_terceiros_nos_jogos
        [("A", "tA"), ("B", "tB"), ("C", "tC"), ("D", "tD"),
         ("E", "tE"), ("F", "tF"), ("G", "tG"), ("H", "tH")] =
        (some a, none) ∧
      a.map (fun p => p.2) =
        [("A", "tA"), ("B", "tB"), ("C", "tC"), ("D", "tD"),
         ("E", "tE"), ("F", "tF"), ("G", "tG"), ("H", "tH")] ∧
      (a.map (fun p => p.1)).Perm match_ids ∧
      ∀ p ∈ a, p.2.1 ∈ allowed_groups p.1 :=
  (C1_assignment_engine
      [("A", "tA"), ("B", "tB"), ("C", "tC"), ("D", "tD"),
       ("E", "tE"), ("F", "tF"), ("G", "tG"), ("H", "tH")]).2.1 rfl
    ⟨["M74", "M81", "M79", "M87", "M80", "M85", "M77", "M82"],
     by decide,
     by
       repeat
         first
         | exact List.Forall₂.nil
         | refine List.Forall₂.cons (by decide) ?_⟩

/-- Witness for C3: the positive clause applied at the concrete code "3A"
and the example standing resolves to the third-placed team. -/
theorem C3_extrair_time_characterization_witness :
    extrair_time "3A"
      [("A", ["Mexico", "South Africa", "South Korea", "UEFA D (DEN/MKD/CZE/IRL)"])] =
      (["Mexico", "South Africa", "South Korea",
        "UEFA D (DEN/MKD/CZE/IRL)"] : List String)[2]? :=
  C3_extrair_time_characterization.2.1 "3A"
    [("A", ["Mexico", "South Africa", "South Korea", "UEFA D (DEN/MKD/CZE/IRL)"])]
    '3' 'A'
    ["Mexico", "South Africa", "South Korea", "UEFA D (DEN/MKD/CZE/IRL)"] 2
    rfl rfl rfl (Or.inr (Or.inr (Or.inl ⟨rfl, rfl⟩)))

end WorldCupSim
